import Mathlib

/-!
Shallow embedding of `gitlab-ci-status` (src/main.rs) and verification of
its specification claims.

The program reads GitLab connection settings from the local git config,
fetches the pipelines of the current branch from the GitLab REST API,
prints the most recent pipeline's status, then fetches and prints that
pipeline's jobs.  Network responses are modelled as data supplied in an
environment; the effectful `main` becomes a pure function from that
environment to a run result (stdout lines, stderr lines, exit code, list
of HTTP requests issued).
-/

namespace GitlabCiStatus

/-! ### JSON values (the shape `serde_json` deserializes from) -/

inductive Json where
  | null
  | bool (b : Bool)
  | num (n : Nat)
  | str (s : String)
  | arr (elems : List Json)
  | obj (fields : List (String × Json))

/-! ### The data model from src/main.rs -/

/-- Rust `struct GitLabConfig { server, access_token, project_name }` (src/main.rs:17-22). -/
structure GitLabConfig where
  server : String
  access_token : String
  project_name : String
deriving DecidableEq

/-- Rust `struct Pipeline` (src/main.rs:24-31): serde requires JSON members
`id`, `status`, `ref_field` (the field has no rename attribute) and
`ref` (renamed to `ref_name`). -/
structure Pipeline where
  id : Nat
  status : String
  ref_field : String
  ref_name : String
deriving DecidableEq

/-- Rust `struct Job` (src/main.rs:33-39): serde requires JSON members
`id`, `status`, `name`, `stage`. -/
structure Job where
  id : Nat
  status : String
  name : String
  stage : String
deriving DecidableEq

/-! ### serde-derived deserialization

`#[derive(Deserialize)]` without `deny_unknown_fields` reads the object's
members in order: a known key stores the value (erroring on a duplicate or
on a type mismatch), an unknown key is ignored; at the end any known key
never seen is a `missing field` error. -/

def jsonAsNat : Json → Except String Nat
  | .num n => .ok n
  | _ => .error "invalid type: expected u64"

def jsonAsStr : Json → Except String String
  | .str s => .ok s
  | _ => .error "invalid type: expected a string"

/-- Field loop of the derived `Deserialize` for `Pipeline`. -/
def decodePipelineFields : List (String × Json) → Option Nat → Option String →
    Option String → Option String → Except String Pipeline
  | [], id?, status?, rf?, rn? =>
    match id?, status?, rf?, rn? with
    | some i, some s, some rf, some rn => .ok ⟨i, s, rf, rn⟩
    | none, _, _, _ => .error "missing field id"
    | _, none, _, _ => .error "missing field status"
    | _, _, none, _ => .error "missing field ref_field"
    | _, _, _, none => .error "missing field ref"
  | (k, v) :: rest, id?, status?, rf?, rn? =>
    if k = "id" then
      match id? with
      | some _ => .error "duplicate field id"
      | none =>
        match jsonAsNat v with
        | .error e => .error e
        | .ok n => decodePipelineFields rest (some n) status? rf? rn?
    else if k = "status" then
      match status? with
      | some _ => .error "duplicate field status"
      | none =>
        match jsonAsStr v with
        | .error e => .error e
        | .ok s => decodePipelineFields rest id? (some s) rf? rn?
    else if k = "ref_field" then
      match rf? with
      | some _ => .error "duplicate field ref_field"
      | none =>
        match jsonAsStr v with
        | .error e => .error e
        | .ok s => decodePipelineFields rest id? status? (some s) rn?
    else if k = "ref" then
      match rn? with
      | some _ => .error "duplicate field ref"
      | none =>
        match jsonAsStr v with
        | .error e => .error e
        | .ok s => decodePipelineFields rest id? status? rf? (some s)
    else
      decodePipelineFields rest id? status? rf? rn?

def decodePipeline : Json → Except String Pipeline
  | .obj fields => decodePipelineFields fields none none none none
  | _ => .error "invalid type: expected a map"

def decodePipelineList : List Json → Except String (List Pipeline)
  | [] => .ok []
  | x :: xs =>
    match decodePipeline x with
    | .error e => .error e
    | .ok p =>
      match decodePipelineList xs with
      | .error e => .error e
      | .ok ps => .ok (p :: ps)

/-- Decoding of `response.json::<Vec<Pipeline>>()` (src/main.rs:94-97). -/
def decodePipelines : Json → Except String (List Pipeline)
  | .arr xs => decodePipelineList xs
  | _ => .error "invalid type: expected a sequence"

/-- Field loop of the derived `Deserialize` for `Job`. -/
def decodeJobFields : List (String × Json) → Option Nat → Option String →
    Option String → Option String → Except String Job
  | [], id?, status?, name?, stage? =>
    match id?, status?, name?, stage? with
    | some i, some s, some n, some st => .ok ⟨i, s, n, st⟩
    | none, _, _, _ => .error "missing field id"
    | _, none, _, _ => .error "missing field status"
    | _, _, none, _ => .error "missing field name"
    | _, _, _, none => .error "missing field stage"
  | (k, v) :: rest, id?, status?, name?, stage? =>
    if k = "id" then
      match id? with
      | some _ => .error "duplicate field id"
      | none =>
        match jsonAsNat v with
        | .error e => .error e
        | .ok n => decodeJobFields rest (some n) status? name? stage?
    else if k = "status" then
      match status? with
      | some _ => .error "duplicate field status"
      | none =>
        match jsonAsStr v with
        | .error e => .error e
        | .ok s => decodeJobFields rest id? (some s) name? stage?
    else if k = "name" then
      match name? with
      | some _ => .error "duplicate field name"
      | none =>
        match jsonAsStr v with
        | .error e => .error e
        | .ok s => decodeJobFields rest id? status? (some s) stage?
    else if k = "stage" then
      match stage? with
      | some _ => .error "duplicate field stage"
      | none =>
        match jsonAsStr v with
        | .error e => .error e
        | .ok s => decodeJobFields rest id? status? name? (some s)
    else
      decodeJobFields rest id? status? name? stage?

def decodeJob : Json → Except String Job
  | .obj fields => decodeJobFields fields none none none none
  | _ => .error "invalid type: expected a map"

def decodeJobList : List Json → Except String (List Job)
  | [] => .ok []
  | x :: xs =>
    match decodeJob x with
    | .error e => .error e
    | .ok j =>
      match decodeJobList xs with
      | .error e => .error e
      | .ok js => .ok (j :: js)

/-- Decoding of `response.json::<Vec<Job>>()` (src/main.rs:122-125). -/
def decodeJobs : Json → Except String (List Job)
  | .arr xs => decodeJobList xs
  | _ => .error "invalid type: expected a sequence"

/-! ### URL construction

`format!("{}/api/v4/...", config.server.trim_end_matches('/'),
urlencoding::encode(&config.project_name), ...)` (src/main.rs:76-81 and
104-109).  `urlencoding::encode` percent-encodes every UTF-8 byte that is
not an unreserved character (`A-Z a-z 0-9 - . _ ~`) using uppercase hex. -/

/-- UTF-8 byte sequence of a character (as `Nat`s below 256). -/
def utf8EncodeChar (c : Char) : List Nat :=
  let n := c.toNat
  if n < 0x80 then [n]
  else if n < 0x800 then
    [0xC0 ||| (n >>> 6), 0x80 ||| (n &&& 0x3F)]
  else if n < 0x10000 then
    [0xE0 ||| (n >>> 12), 0x80 ||| ((n >>> 6) &&& 0x3F), 0x80 ||| (n &&& 0x3F)]
  else
    [0xF0 ||| (n >>> 18), 0x80 ||| ((n >>> 12) &&& 0x3F),
     0x80 ||| ((n >>> 6) &&& 0x3F), 0x80 ||| (n &&& 0x3F)]

/-- Unreserved bytes that `urlencoding::encode` leaves as-is. -/
def isUnreservedByte (b : Nat) : Bool :=
  (0x41 ≤ b && b ≤ 0x5A) || (0x61 ≤ b && b ≤ 0x7A) || (0x30 ≤ b && b ≤ 0x39) ||
  b = 0x2D || b = 0x2E || b = 0x5F || b = 0x7E

/-- Uppercase hex digit of a value below 16. -/
def hexDigit (n : Nat) : Char :=
  if n < 10 then Char.ofNat (48 + n) else Char.ofNat (55 + n)

def encodeByte (b : Nat) : String :=
  if isUnreservedByte b then String.singleton (Char.ofNat b)
  else "%" ++ String.singleton (hexDigit (b / 16)) ++ String.singleton (hexDigit (b % 16))

/-- Rust `urlencoding::encode` applied to a string. -/
def urlencode (s : String) : String :=
  s.data.foldl (fun acc c => acc ++ ((utf8EncodeChar c).map encodeByte).foldl (· ++ ·) "") ""

/-- Rust `str::trim_end_matches('/')`: remove all trailing `/` characters. -/
def trimEndSlashes (s : String) : String :=
  ⟨(s.data.reverse.dropWhile (fun c => c = '/')).reverse⟩

/-- The URL built by `get_pipeline_status` (src/main.rs:76-81): the project
name is percent-encoded, the branch is interpolated verbatim. -/
def pipelinesUrl (config : GitLabConfig) (branch : String) : String :=
  trimEndSlashes config.server ++ "/api/v4/projects/" ++
    urlencode config.project_name ++ "/pipelines?ref=" ++ branch

/-- The URL built by `get_jobs` (src/main.rs:104-109): the project name is
percent-encoded, the pipeline id is interpolated verbatim. -/
def jobsUrl (config : GitLabConfig) (pipeline_id : Nat) : String :=
  trimEndSlashes config.server ++ "/api/v4/projects/" ++
    urlencode config.project_name ++ "/pipelines/" ++ toString pipeline_id ++ "/jobs"

/-! ### Status rendering (`display_status`, src/main.rs:130-139) -/

/-- The colors the `colored` crate applies in `display_status`. -/
inductive Color where
  | green
  | red
  | yellow
  | white
  | blue
deriving DecidableEq

/-- One rendered status line: text, color, boldness. -/
structure Rendered where
  text : String
  color : Color
  bold : Bool
deriving DecidableEq

/-- Rust `str::to_lowercase` (character-wise; the table keys are ASCII). -/
def toLowercase (s : String) : String :=
  ⟨s.data.map Char.toLower⟩

/-- Rust `str::to_uppercase` (character-wise). -/
def toUppercase (s : String) : String :=
  ⟨s.data.map Char.toUpper⟩

/-- Function `display_status` (src/main.rs:130-139): match on the lowercased status;
the fallback prints `● ` followed by the uppercased original input. -/
def display_status (status : String) : Rendered :=
  let lower := toLowercase status
  if lower = "success" then ⟨"● SUCCESS", Color.green, true⟩
  else if lower = "failed" then ⟨"● FAILED", Color.red, true⟩
  else if lower = "running" ∨ lower = "pending" then ⟨"● BUILDING", Color.yellow, true⟩
  else if lower = "canceled" then ⟨"● CANCELED", Color.white, true⟩
  else if lower = "skipped" then ⟨"● SKIPPED", Color.blue, true⟩
  else ⟨"● " ++ toUppercase status, Color.white, true⟩

/-! ### The program as a function of its environment

The effectful parts (git repository, git config, HTTP) are modelled by an
environment record; `run` is `main` (src/main.rs:141-182) over it. -/

/-- An HTTP response: status code and JSON body. -/
structure HttpResp where
  status : Nat
  body : Json

/-- The world `main` interacts with: whether `.git` exists, whether
`Repository::open(".")` succeeds, the three `gitlab.*` config values
(`none` = key absent), the HEAD branch shorthand, and the responses the
server would give to the two requests. -/
structure Env where
  gitDirExists : Bool
  repoOpens : Bool
  server? : Option String
  accessToken? : Option String
  projectName? : Option String
  branch? : Option String
  pipelinesResp : HttpResp
  jobsResp : HttpResp

/-- Result of a run: stdout lines, stderr lines, exit code, the request
URLs issued in order, and whether the git config was read. -/
structure RunResult where
  output : List String
  errOutput : List String
  exitCode : Nat
  requests : List String
  configRead : Bool

/-- Function `get_git_config` (src/main.rs:41-62): reads `gitlab.server`,
`gitlab.access-token`, `gitlab.project-name`, failing with the matching
context message on the first absent key. -/
def get_git_config (env : Env) : Except String GitLabConfig :=
  if env.repoOpens = false then .error "Failed to open git repository"
  else
    match env.server? with
    | none => .error "gitlab.server not found in .git/config"
    | some server =>
      match env.accessToken? with
      | none => .error "gitlab.access-token not found in .git/config"
      | some access_token =>
        match env.projectName? with
        | none => .error "gitlab.project-name not found in .git/config"
        | some project_name => .ok ⟨server, access_token, project_name⟩

/-- Function `get_current_branch` (src/main.rs:64-72). -/
def get_current_branch (env : Env) : Except String String :=
  if env.repoOpens = false then .error "Failed to open git repository"
  else
    match env.branch? with
    | none => .error "Failed to get HEAD"
    | some branch => .ok branch

/-- Rust `reqwest::StatusCode::is_success()`: 200..=299. -/
def is2xx (status : Nat) : Bool :=
  200 ≤ status && status ≤ 299

/-- Response handling of `get_pipeline_status` (src/main.rs:90-99):
non-2xx bails with the status in the message, otherwise the body is
decoded as `Vec<Pipeline>`. -/
def get_pipeline_status (resp : HttpResp) : Except String (List Pipeline) :=
  if is2xx resp.status = false then
    .error ("GitLab API request failed: " ++ toString resp.status)
  else
    match decodePipelines resp.body with
    | .error _ => .error "Failed to parse pipeline response"
    | .ok pipelines => .ok pipelines

/-- Response handling of `get_jobs` (src/main.rs:118-127). -/
def get_jobs (resp : HttpResp) : Except String (List Job) :=
  if is2xx resp.status = false then
    .error ("GitLab API request failed: " ++ toString resp.status)
  else
    match decodeJobs resp.body with
    | .error _ => .error "Failed to parse jobs response"
    | .ok jobs => .ok jobs

/-- One printed job line (src/main.rs:176-177): `print!` of the prefix and
then `display_status`'s `println!` land on the same visual line. -/
def jobLine (j : Job) : String :=
  "  " ++ j.name ++ " (" ++ j.stage ++ ") - " ++ (display_status j.status).text

/-- Function `main` (src/main.rs:141-182) as a pure function of the environment.
A `Result::Err` propagated out of `main` is printed to stderr by the
`anyhow` runtime and the process exits with code 1. -/
def run (env : Env) : RunResult :=
  if env.gitDirExists = false then
    ⟨[], ["Error: Not in a git repository"], 1, [], false⟩
  else
    match get_git_config env with
    | .error e => ⟨[], [e], 1, [], true⟩
    | .ok config =>
      match get_current_branch env with
      | .error e => ⟨[], [e], 1, [], true⟩
      | .ok branch =>
        let out₀ := ["Branch: " ++ branch]
        let purl := pipelinesUrl config branch
        match get_pipeline_status env.pipelinesResp with
        | .error e => ⟨out₀, [e], 1, [purl], true⟩
        | .ok [] =>
          ⟨out₀ ++ ["No pipelines found for this branch"], [], 0, [purl], true⟩
        | .ok (latest :: _) =>
          let out₁ := out₀ ++
            ["Pipeline ID: " ++ toString latest.id, "Status: ",
             (display_status latest.status).text]
          let jurl := jobsUrl config latest.id
          match get_jobs env.jobsResp with
          | .error e => ⟨out₁, [e], 1, [purl, jurl], true⟩
          | .ok jobs =>
            if jobs.isEmpty then ⟨out₁, [], 0, [purl, jurl], true⟩
            else ⟨out₁ ++ ["", "Jobs:"] ++ jobs.map jobLine, [], 0, [purl, jurl], true⟩

/-! ### Concrete environments and bodies used by witnesses -/

/-- A 2xx body that satisfies the documented GitLab shape: one pipeline
object with members `id`, `status` and `ref`. -/
def gitlabPipelinesBody : Json :=
  Json.arr [Json.obj
    [("id", Json.num 1), ("status", Json.str "success"), ("ref", Json.str "master")]]

/-- A pipelines body the derived deserializer accepts (it must also carry
`ref_field`, see C1). -/
def pipeOkBody : Json :=
  Json.arr [Json.obj
    [("id", Json.num 7), ("status", Json.str "success"),
     ("ref_field", Json.str "x"), ("ref", Json.str "master")]]

/-- A jobs body with two jobs, to observe printing order. -/
def jobsOkBody : Json :=
  Json.arr
    [Json.obj [("id", Json.num 11), ("status", Json.str "failed"),
               ("name", Json.str "build"), ("stage", Json.str "compile")],
     Json.obj [("id", Json.num 12), ("status", Json.str "running"),
               ("name", Json.str "unit"), ("stage", Json.str "test")]]

/-- Well-configured environment whose branch has no pipelines. -/
def envNoPipelines : Env :=
  ⟨true, true, some "https://gl.example/", some "tok", some "grp/proj", some "main",
   ⟨200, Json.arr []⟩, ⟨200, Json.arr []⟩⟩

/-- Environment whose git config has none of the `gitlab.*` keys. -/
def envNoConfig : Env :=
  ⟨true, true, none, none, none, some "main", ⟨200, Json.arr []⟩, ⟨200, Json.arr []⟩⟩

/-- Environment with `gitlab.server` set but `gitlab.access-token` absent. -/
def envNoToken : Env :=
  ⟨true, true, some "https://gl.example/", none, some "grp/proj", some "main",
   ⟨200, Json.arr []⟩, ⟨200, Json.arr []⟩⟩

/-- Environment whose working directory has no `.git`. -/
def envNoGit : Env :=
  ⟨false, true, some "https://gl.example/", some "tok", some "grp/proj", some "main",
   ⟨200, Json.arr []⟩, ⟨200, Json.arr []⟩⟩

/-- Environment where the pipelines request gets a 404. -/
def envApi404 : Env :=
  ⟨true, true, some "https://gl.example/", some "tok", some "grp/proj", some "main",
   ⟨404, Json.arr []⟩, ⟨200, Json.arr []⟩⟩

/-- Environment where pipelines succeed but the jobs request gets a 500. -/
def envJobs500 : Env :=
  ⟨true, true, some "https://gl.example/", some "tok", some "grp/proj", some "main",
   ⟨200, pipeOkBody⟩, ⟨500, Json.arr []⟩⟩

/-- Environment where both requests succeed and two jobs are returned. -/
def envWithJobs : Env :=
  ⟨true, true, some "https://gl.example/", some "tok", some "grp/proj", some "main",
   ⟨200, pipeOkBody⟩, ⟨200, jobsOkBody⟩⟩

/-- The JSON member names the derived `Pipeline` deserializer knows. -/
def pipelineKeys : List String := ["id", "status", "ref_field", "ref"]

/-- The JSON member names the derived `Job` deserializer knows. -/
def jobKeys : List String := ["id", "status", "name", "stage"]

/-! ### Helper lemmas -/

/-- Trimming with `trim_end_matches('/')` leaves no trailing slash. -/
theorem trimEndSlashes_last_not_slash (s : String) :
    (trimEndSlashes s).data.getLast? ≠ some '/' := by
  show ((s.data.reverse.dropWhile fun c => c = '/').reverse).getLast? ≠ some '/'
  rw [List.getLast?_eq_head?_reverse, List.reverse_reverse]
  have h := List.head?_dropWhile_not (fun c => decide (c = '/')) s.data.reverse
  intro hc
  rw [hc] at h
  simp at h

/-- Splitting the `/api/v4/projects/` literal after the API root. -/
theorem api_root_split (x : String) :
    "/api/v4/projects/" ++ x = "/api/v4/" ++ ("projects/" ++ x) := by
  rw [← String.append_assoc]
  rfl

/-! ### C1: decoding a standard GitLab pipelines response -/

/-- C1: decoding a 2xx body that is a JSON array of objects with members
`id`, `status` and `ref` does NOT succeed: the derived deserializer for
`Pipeline` also demands a member named `ref_field` (the struct field
`ref_field` carries no serde rename), so such a body fails with a
missing-field decode error.  Supplying an extra `ref_field` member is the
only obstruction: with it, decoding succeeds and `ref` is mapped to
`ref_name`. -/
theorem pipelines_decode_demands_ref_field :
    decodePipelines gitlabPipelinesBody = Except.error "missing field ref_field" ∧
    decodePipelines (Json.arr [Json.obj
        [("id", Json.num 1), ("status", Json.str "success"),
         ("ref", Json.str "master"), ("ref_field", Json.str "x")]]) =
      Except.ok [⟨1, "success", "x", "master"⟩] :=
  ⟨rfl, rfl⟩

/-! ### C2: the status renderer is total and case-insensitive -/

/-- C2: for every input string, lowercasing and matching the table yields
exactly one rendering — success `● SUCCESS` green bold, failed `● FAILED`
red bold, running/pending `● BUILDING` yellow bold, canceled `● CANCELED`
white bold, skipped `● SKIPPED` blue bold, anything else `● ` followed by
the uppercased original input, white bold — and the renderer never
errors (it is a total function into `Rendered`). -/
theorem display_status_total (s : String) :
    (toLowercase s = "success" → display_status s = ⟨"● SUCCESS", Color.green, true⟩) ∧
    (toLowercase s = "failed" → display_status s = ⟨"● FAILED", Color.red, true⟩) ∧
    (toLowercase s = "running" ∨ toLowercase s = "pending" →
      display_status s = ⟨"● BUILDING", Color.yellow, true⟩) ∧
    (toLowercase s = "canceled" → display_status s = ⟨"● CANCELED", Color.white, true⟩) ∧
    (toLowercase s = "skipped" → display_status s = ⟨"● SKIPPED", Color.blue, true⟩) ∧
    (toLowercase s ∉
        (["success", "failed", "running", "pending", "canceled", "skipped"] : List String) →
      display_status s = ⟨"● " ++ toUppercase s, Color.white, true⟩) := by
  refine ⟨fun h => ?_, fun h => ?_, fun h => ?_, fun h => ?_, fun h => ?_, fun h => ?_⟩
  · simp +decide [display_status, h]
  · simp +decide [display_status, h]
  · rcases h with h | h <;> simp +decide [display_status, h]
  · simp +decide [display_status, h]
  · simp +decide [display_status, h]
  · simp only [List.mem_cons, List.not_mem_nil, or_false, not_or] at h
    obtain ⟨h1, h2, h3, h4, h5, h6⟩ := h
    simp [display_status, h1, h2, h3, h4, h5, h6]

/-- Witness for C2 at concrete inputs. -/
theorem display_status_total_witness :
    display_status "Running" = ⟨"● BUILDING", Color.yellow, true⟩ ∧
    display_status "restarted" = ⟨"● " ++ toUppercase "restarted", Color.white, true⟩ :=
  ⟨(display_status_total "Running").2.2.1 (Or.inl rfl),
   (display_status_total "restarted").2.2.2.2.2 (by decide)⟩

/-! ### C3: project name encoded, branch and pipeline id literal -/

/-- C3: both request URLs percent-encode the project identifier — for the
project name `group/sub-project` the URL contains `group%2Fsub-project` —
while the branch name and the pipeline id are interpolated verbatim,
without encoding. -/
theorem urls_encode_project_literal_branch_id (config : GitLabConfig) (branch : String)
    (pipeline_id : Nat) :
    urlencode "group/sub-project" = "group%2Fsub-project" ∧
    pipelinesUrl config branch =
      trimEndSlashes config.server ++ "/api/v4/projects/" ++
        urlencode config.project_name ++ "/pipelines?ref=" ++ branch ∧
    jobsUrl config pipeline_id =
      trimEndSlashes config.server ++ "/api/v4/projects/" ++
        urlencode config.project_name ++ "/pipelines/" ++ toString pipeline_id ++ "/jobs" ∧
    pipelinesUrl ⟨config.server, config.access_token, "group/sub-project"⟩ branch =
      trimEndSlashes config.server ++ "/api/v4/projects/" ++ "group%2Fsub-project" ++
        "/pipelines?ref=" ++ branch :=
  ⟨rfl, rfl, rfl, rfl⟩

/-! ### C4: no doubled slash after a trailing-slash server URL -/

/-- C4: for every server URL (in particular one ending in `/`), the request
URLs are the server with all trailing slashes removed followed by
`/api/v4/...`, and the trimmed server does not end in `/`, so no doubled
slash appears at the junction. -/
theorem urls_no_doubled_slash (config : GitLabConfig) (branch : String) (pipeline_id : Nat) :
    (∃ rest, pipelinesUrl config branch =
      trimEndSlashes config.server ++ "/api/v4/" ++ rest) ∧
    (∃ rest, jobsUrl config pipeline_id =
      trimEndSlashes config.server ++ "/api/v4/" ++ rest) ∧
    (trimEndSlashes config.server).data.getLast? ≠ some '/' := by
  refine ⟨⟨"projects/" ++ urlencode config.project_name ++ "/pipelines?ref=" ++ branch, ?_⟩,
    ⟨"projects/" ++ urlencode config.project_name ++ "/pipelines/" ++
      toString pipeline_id ++ "/jobs", ?_⟩,
    trimEndSlashes_last_not_slash config.server⟩
  · show trimEndSlashes config.server ++ "/api/v4/projects/" ++
      urlencode config.project_name ++ "/pipelines?ref=" ++ branch = _
    simp only [String.append_assoc, api_root_split]
  · show trimEndSlashes config.server ++ "/api/v4/projects/" ++
      urlencode config.project_name ++ "/pipelines/" ++ toString pipeline_id ++ "/jobs" = _
    simp only [String.append_assoc, api_root_split]

/-! ### C5: empty pipeline list is not an error -/

/-- C5: when the pipelines request succeeds and decodes to an empty list,
the program prints the informational message, issues no jobs request (the
only request is the pipelines one), and exits 0 with nothing on stderr. -/
theorem empty_pipelines_success (env : Env) (sv tok pn br : String)
    (hgit : env.gitDirExists = true) (hrepo : env.repoOpens = true)
    (hs : env.server? = some sv) (ht : env.accessToken? = some tok)
    (hp : env.projectName? = some pn) (hb : env.branch? = some br)
    (h2xx : is2xx env.pipelinesResp.status = true)
    (hdec : decodePipelines env.pipelinesResp.body = .ok []) :
    (run env).exitCode = 0 ∧
    (run env).output = ["Branch: " ++ br, "No pipelines found for this branch"] ∧
    (run env).requests = [pipelinesUrl ⟨sv, tok, pn⟩ br] ∧
    (run env).errOutput = [] := by
  simp [run, get_git_config, get_current_branch, get_pipeline_status,
    hgit, hrepo, hs, ht, hp, hb, h2xx, hdec]

/-- Witness for C5 at a concrete environment. -/
theorem empty_pipelines_success_witness :
    (run envNoPipelines).exitCode = 0 ∧
    (run envNoPipelines).output = ["Branch: " ++ "main", "No pipelines found for this branch"] ∧
    (run envNoPipelines).requests =
      [pipelinesUrl ⟨"https://gl.example/", "tok", "grp/proj"⟩ "main"] ∧
    (run envNoPipelines).errOutput = [] :=
  empty_pipelines_success envNoPipelines "https://gl.example/" "tok" "grp/proj" "main"
    rfl rfl rfl rfl rfl rfl rfl rfl

/-! ### C6: missing `gitlab.access-token` -/

/-- C6 counterexample: in an environment whose config has no `gitlab.*`
keys at all, `gitlab.access-token` is absent and the run does exit
non-zero without issuing a request, but the single error message names
`gitlab.server` — the first key read — and does not mention
`gitlab.access-token`. -/
theorem missing_token_counterexample :
    envNoConfig.accessToken? = none ∧
    (run envNoConfig).exitCode = 1 ∧
    (run envNoConfig).requests = [] ∧
    (run envNoConfig).errOutput = ["gitlab.server not found in .git/config"] ∧
    ¬ ("gitlab.access-token".data <:+: "gitlab.server not found in .git/config".data) :=
  ⟨rfl, rfl, rfl, rfl, by decide⟩

/-- C6 (amended): if `gitlab.server` is present but `gitlab.access-token`
is absent, the program exits non-zero with the error naming
`gitlab.access-token`, and no HTTP request is issued. -/
theorem missing_token_errors (env : Env) (sv : String)
    (hgit : env.gitDirExists = true) (hrepo : env.repoOpens = true)
    (hs : env.server? = some sv) (ht : env.accessToken? = none) :
    (run env).exitCode = 1 ∧
    (run env).requests = [] ∧
    (run env).errOutput = ["gitlab.access-token not found in .git/config"] := by
  simp [run, get_git_config, hgit, hrepo, hs, ht]

/-- Witness for the amended C6 at a concrete environment. -/
theorem missing_token_errors_witness :
    (run envNoToken).exitCode = 1 ∧
    (run envNoToken).requests = [] ∧
    (run envNoToken).errOutput = ["gitlab.access-token not found in .git/config"] :=
  missing_token_errors envNoToken "https://gl.example/" rfl rfl rfl rfl

/-! ### C7: not a git repository -/

/-- C7: when `.git` does not exist in the working directory, the run
prints the error, exits 1, reads no configuration (`configRead = false`)
and issues no request — regardless of everything else in the
environment. -/
theorem no_git_dir_exits_early (env : Env) (h : env.gitDirExists = false) :
    run env = ⟨[], ["Error: Not in a git repository"], 1, [], false⟩ := by
  simp [run, h]

/-- Witness for C7 at a concrete environment. -/
theorem no_git_dir_exits_early_witness :
    run envNoGit = ⟨[], ["Error: Not in a git repository"], 1, [], false⟩ :=
  no_git_dir_exits_early envNoGit rfl

/-! ### C8: non-2xx responses become errors that stop the run -/

/-- C8: a non-2xx pipelines response makes the run exit 1 with the error
message carrying the HTTP status code, after exactly one request (no
retry); a non-2xx jobs response likewise, after exactly one pipelines and
one jobs request. -/
theorem non2xx_api_error (env : Env) (sv tok pn br : String)
    (hgit : env.gitDirExists = true) (hrepo : env.repoOpens = true)
    (hs : env.server? = some sv) (ht : env.accessToken? = some tok)
    (hp : env.projectName? = some pn) (hb : env.branch? = some br) :
    (is2xx env.pipelinesResp.status = false →
      (run env).exitCode = 1 ∧
      (run env).errOutput =
        ["GitLab API request failed: " ++ toString env.pipelinesResp.status] ∧
      (run env).requests = [pipelinesUrl ⟨sv, tok, pn⟩ br]) ∧
    (∀ latest others, is2xx env.pipelinesResp.status = true →
      decodePipelines env.pipelinesResp.body = .ok (latest :: others) →
      is2xx env.jobsResp.status = false →
      (run env).exitCode = 1 ∧
      (run env).errOutput =
        ["GitLab API request failed: " ++ toString env.jobsResp.status] ∧
      (run env).requests =
        [pipelinesUrl ⟨sv, tok, pn⟩ br, jobsUrl ⟨sv, tok, pn⟩ latest.id]) := by
  constructor
  · intro hbad
    simp [run, get_git_config, get_current_branch, get_pipeline_status,
      hgit, hrepo, hs, ht, hp, hb, hbad]
  · intro latest others hok hdec hbad
    simp [run, get_git_config, get_current_branch, get_pipeline_status, get_jobs,
      hgit, hrepo, hs, ht, hp, hb, hok, hdec, hbad]

/-- Witness for C8: a 404 on pipelines and a 500 on jobs, each at a
concrete environment. -/
theorem non2xx_api_error_witness :
    ((run envApi404).exitCode = 1 ∧
      (run envApi404).errOutput =
        ["GitLab API request failed: " ++ toString (404 : Nat)] ∧
      (run envApi404).requests =
        [pipelinesUrl ⟨"https://gl.example/", "tok", "grp/proj"⟩ "main"]) ∧
    ((run envJobs500).exitCode = 1 ∧
      (run envJobs500).errOutput =
        ["GitLab API request failed: " ++ toString (500 : Nat)] ∧
      (run envJobs500).requests =
        [pipelinesUrl ⟨"https://gl.example/", "tok", "grp/proj"⟩ "main",
         jobsUrl ⟨"https://gl.example/", "tok", "grp/proj"⟩ 7]) :=
  ⟨(non2xx_api_error envApi404 "https://gl.example/" "tok" "grp/proj" "main"
      rfl rfl rfl rfl rfl rfl).1 rfl,
   (non2xx_api_error envJobs500 "https://gl.example/" "tok" "grp/proj" "main"
      rfl rfl rfl rfl rfl rfl).2 ⟨7, "success", "x", "master"⟩ [] rfl rfl rfl⟩

/-! ### C9: job lines are printed in order on one visual line each -/

/-- C9: when the fetched job list is non-empty, stdout is the branch and
pipeline header, a blank line, the `Jobs:` header, then one line per job
in the order received, each the prefix `  {name} ({stage}) - ` followed
immediately by the rendered status on the same visual line
(`jobLine`). -/
theorem jobs_printed_in_order (env : Env) (sv tok pn br : String)
    (latest : Pipeline) (others : List Pipeline) (jobs : List Job)
    (hgit : env.gitDirExists = true) (hrepo : env.repoOpens = true)
    (hs : env.server? = some sv) (ht : env.accessToken? = some tok)
    (hp : env.projectName? = some pn) (hb : env.branch? = some br)
    (hP : is2xx env.pipelinesResp.status = true)
    (hPd : decodePipelines env.pipelinesResp.body = .ok (latest :: others))
    (hJ : is2xx env.jobsResp.status = true)
    (hJd : decodeJobs env.jobsResp.body = .ok jobs)
    (hne : jobs ≠ []) :
    (run env).output =
      ["Branch: " ++ br, "Pipeline ID: " ++ toString latest.id, "Status: ",
       (display_status latest.status).text, "", "Jobs:"] ++ jobs.map jobLine ∧
    (run env).exitCode = 0 ∧
    (run env).errOutput = [] := by
  cases jobs with
  | nil => exact absurd rfl hne
  | cons j js =>
    simp [run, get_git_config, get_current_branch, get_pipeline_status, get_jobs,
      hgit, hrepo, hs, ht, hp, hb, hP, hPd, hJ, hJd]

/-- Witness for C9: two jobs, printed in the order received. -/
theorem jobs_printed_in_order_witness :
    (run envWithJobs).output =
      ["Branch: " ++ "main", "Pipeline ID: " ++ toString (7 : Nat), "Status: ",
       (display_status "success").text, "", "Jobs:"] ++
        ([⟨11, "failed", "build", "compile"⟩,
          ⟨12, "running", "unit", "test"⟩] : List Job).map jobLine ∧
    (run envWithJobs).exitCode = 0 ∧
    (run envWithJobs).errOutput = [] :=
  jobs_printed_in_order envWithJobs "https://gl.example/" "tok" "grp/proj" "main"
    ⟨7, "success", "x", "master"⟩ []
    [⟨11, "failed", "build", "compile"⟩, ⟨12, "running", "unit", "test"⟩]
    rfl rfl rfl rfl rfl rfl rfl rfl rfl rfl (by decide)

/-! ### C10: unknown JSON members are ignored -/

/-- Members with unknown names do not affect the field loop of the derived
`Pipeline` deserializer, whatever the accumulated state. -/
theorem decodePipelineFields_filter (fields : List (String × Json)) :
    ∀ a b c d,
      decodePipelineFields (fields.filter fun kv => decide (kv.1 ∈ pipelineKeys)) a b c d =
        decodePipelineFields fields a b c d := by
  induction fields with
  | nil => intro a b c d; rfl
  | cons kv rest ih =>
    obtain ⟨k, v⟩ := kv
    intro a b c d
    by_cases h1 : k = "id"
    · subst h1
      have hkeep : ((("id", v) :: rest).filter fun kv => decide (kv.1 ∈ pipelineKeys)) =
          ("id", v) :: (rest.filter fun kv => decide (kv.1 ∈ pipelineKeys)) := by
        rw [List.filter_cons]
        simp [pipelineKeys]
      rw [hkeep]
      cases a with
      | some x => simp [decodePipelineFields]
      | none =>
        cases hv : jsonAsNat v with
        | error e => simp [decodePipelineFields, hv]
        | ok n => simp [decodePipelineFields, hv, ih]
    · by_cases h2 : k = "status"
      · subst h2
        have hkeep : ((("status", v) :: rest).filter fun kv => decide (kv.1 ∈ pipelineKeys)) =
            ("status", v) :: (rest.filter fun kv => decide (kv.1 ∈ pipelineKeys)) := by
          rw [List.filter_cons]
          simp [pipelineKeys]
        rw [hkeep]
        cases b with
        | some x => simp [decodePipelineFields]
        | none =>
          cases hv : jsonAsStr v with
          | error e => simp [decodePipelineFields, hv]
          | ok s => simp [decodePipelineFields, hv, ih]
      · by_cases h3 : k = "ref_field"
        · subst h3
          have hkeep : ((("ref_field", v) :: rest).filter fun kv => decide (kv.1 ∈ pipelineKeys)) =
              ("ref_field", v) :: (rest.filter fun kv => decide (kv.1 ∈ pipelineKeys)) := by
            rw [List.filter_cons]
            simp [pipelineKeys]
          rw [hkeep]
          cases c with
          | some x => simp [decodePipelineFields, h1, h2]
          | none =>
            cases hv : jsonAsStr v with
            | error e => simp [decodePipelineFields, h1, h2, hv]
            | ok s => simp [decodePipelineFields, h1, h2, hv, ih]
        · by_cases h4 : k = "ref"
          · subst h4
            have hkeep : ((("ref", v) :: rest).filter fun kv => decide (kv.1 ∈ pipelineKeys)) =
                ("ref", v) :: (rest.filter fun kv => decide (kv.1 ∈ pipelineKeys)) := by
              rw [List.filter_cons]
              simp [pipelineKeys]
            rw [hkeep]
            cases d with
            | some x => simp [decodePipelineFields, h1, h2, h3]
            | none =>
              cases hv : jsonAsStr v with
              | error e => simp [decodePipelineFields, h1, h2, h3, hv]
              | ok s => simp [decodePipelineFields, h1, h2, h3, hv, ih]
          · have hc : k ∉ pipelineKeys := by
              simp [pipelineKeys, h1, h2, h3, h4]
            have hdrop : (((k, v) :: rest).filter fun kv => decide (kv.1 ∈ pipelineKeys)) =
                rest.filter fun kv => decide (kv.1 ∈ pipelineKeys) := by
              rw [List.filter_cons]
              simp [hc]
            rw [hdrop]
            simp [decodePipelineFields, h1, h2, h3, h4, ih]

/-- Members with unknown names do not affect the field loop of the derived
`Job` deserializer, whatever the accumulated state. -/
theorem decodeJobFields_filter (fields : List (String × Json)) :
    ∀ a b c d,
      decodeJobFields (fields.filter fun kv => decide (kv.1 ∈ jobKeys)) a b c d =
        decodeJobFields fields a b c d := by
  induction fields with
  | nil => intro a b c d; rfl
  | cons kv rest ih =>
    obtain ⟨k, v⟩ := kv
    intro a b c d
    by_cases h1 : k = "id"
    · subst h1
      have hkeep : ((("id", v) :: rest).filter fun kv => decide (kv.1 ∈ jobKeys)) =
          ("id", v) :: (rest.filter fun kv => decide (kv.1 ∈ jobKeys)) := by
        rw [List.filter_cons]
        simp [jobKeys]
      rw [hkeep]
      cases a with
      | some x => simp [decodeJobFields]
      | none =>
        cases hv : jsonAsNat v with
        | error e => simp [decodeJobFields, hv]
        | ok n => simp [decodeJobFields, hv, ih]
    · by_cases h2 : k = "status"
      · subst h2
        have hkeep : ((("status", v) :: rest).filter fun kv => decide (kv.1 ∈ jobKeys)) =
            ("status", v) :: (rest.filter fun kv => decide (kv.1 ∈ jobKeys)) := by
          rw [List.filter_cons]
          simp [jobKeys]
        rw [hkeep]
        cases b with
        | some x => simp [decodeJobFields]
        | none =>
          cases hv : jsonAsStr v with
          | error e => simp [decodeJobFields, hv]
          | ok s => simp [decodeJobFields, hv, ih]
      · by_cases h3 : k = "name"
        · subst h3
          have hkeep : ((("name", v) :: rest).filter fun kv => decide (kv.1 ∈ jobKeys)) =
              ("name", v) :: (rest.filter fun kv => decide (kv.1 ∈ jobKeys)) := by
            rw [List.filter_cons]
            simp [jobKeys]
          rw [hkeep]
          cases c with
          | some x => simp [decodeJobFields, h1, h2]
          | none =>
            cases hv : jsonAsStr v with
            | error e => simp [decodeJobFields, h1, h2, hv]
            | ok s => simp [decodeJobFields, h1, h2, hv, ih]
        · by_cases h4 : k = "stage"
          · subst h4
            have hkeep : ((("stage", v) :: rest).filter fun kv => decide (kv.1 ∈ jobKeys)) =
                ("stage", v) :: (rest.filter fun kv => decide (kv.1 ∈ jobKeys)) := by
              rw [List.filter_cons]
              simp [jobKeys]
            rw [hkeep]
            cases d with
            | some x => simp [decodeJobFields, h1, h2, h3]
            | none =>
              cases hv : jsonAsStr v with
              | error e => simp [decodeJobFields, h1, h2, h3, hv]
              | ok s => simp [decodeJobFields, h1, h2, h3, hv, ih]
          · have hc : k ∉ jobKeys := by
              simp [jobKeys, h1, h2, h3, h4]
            have hdrop : (((k, v) :: rest).filter fun kv => decide (kv.1 ∈ jobKeys)) =
                rest.filter fun kv => decide (kv.1 ∈ jobKeys) := by
              rw [List.filter_cons]
              simp [hc]
            rw [hdrop]
            simp [decodeJobFields, h1, h2, h3, h4, ih]

/-- C10: JSON members with names the record does not require are ignored
by both deserializers — an object decodes exactly as the same object with
every unknown member removed, so unknown members never cause a decode
failure; concretely, a job object carrying extra `web_url` and
`allow_failure` members still decodes. -/
theorem unknown_fields_ignored (pfields jfields : List (String × Json)) :
    decodePipeline (Json.obj pfields) =
      decodePipeline (Json.obj (pfields.filter fun kv => decide (kv.1 ∈ pipelineKeys))) ∧
    decodeJob (Json.obj jfields) =
      decodeJob (Json.obj (jfields.filter fun kv => decide (kv.1 ∈ jobKeys))) ∧
    decodeJob (Json.obj
        [("id", Json.num 3), ("status", Json.str "failed"), ("name", Json.str "build"),
         ("stage", Json.str "test"), ("web_url", Json.str "u"),
         ("allow_failure", Json.bool false)]) =
      Except.ok ⟨3, "failed", "build", "test"⟩ :=
  ⟨(decodePipelineFields_filter pfields none none none none).symm,
   (decodeJobFields_filter jfields none none none none).symm, rfl⟩

end GitlabCiStatus
